import Mathlib

/-!
Shallow embedding of the `react_movie` repository's behavioural core:
the analytics-store client (`src/appwrite.js`), the application
controller (`App` component: `fetchMovies`, `loadTrendingMovies`) and
the debounce timer that rate-limits search queries.

External effects are made explicit: the Appwrite document store is a
list of documents, a network fetch is an explicit outcome value, and a
JavaScript runtime `TypeError` (property access on `undefined`) is
modelled by `Option`/a dedicated crash marker.
-/

namespace ReactMovie

/-- A TMDB movie object, with the fields the core logic reads.
`poster_path` is `none` when the API sends JSON `null`. -/
structure Movie where
  id : Nat
  title : String
  poster_path : Option String
  deriving Repr, DecidableEq

/-- An Appwrite document of the search-analytics collection:
`$id`, `searchTerm`, `count`, `movie_id`, `poster_url`. -/
structure SearchDoc where
  docId : String
  searchTerm : String
  count : Int
  movie_id : Nat
  poster_url : String
  deriving Repr, DecidableEq

/-- The fixed image-host prefix used by `updateSearchCount` in
`src/appwrite.js` when building `poster_url`. -/
def tmdbImagePrefix : String := "https://image.tmdb.org/t/p/w500"

/-- JavaScript template-literal rendering of `movie.poster_path`:
a string interpolates as itself, JSON `null` interpolates as `"null"`. -/
def posterPathStr : Option String → String
  | some s => s
  | none => "null"

/-- `updateSearchCount(searchTerm, movie)` from `src/appwrite.js`,
acting on an explicit store.  `listDocuments` with
`Query.equal("searchTerm", searchTerm)` is the filtered store, so
`result.documents[0]` is the first document whose `searchTerm` matches;
`updateDocument` by `doc.$id` rewrites that id's document in place;
`createDocument` with `ID.unique()` appends a document under a fresh id
(passed here as `freshId`). -/
def updateSearchCount (searchTerm : String) (movie : Movie) (freshId : String)
    (store : List SearchDoc) : List SearchDoc :=
  match store.find? (fun d => d.searchTerm == searchTerm) with
  | some doc =>
      store.map (fun d => if d.docId == doc.docId then { d with count := d.count + 1 } else d)
  | none =>
      store ++ [{ docId := freshId, searchTerm := searchTerm, count := 1,
                  movie_id := movie.id,
                  poster_url := tmdbImagePrefix ++ posterPathStr movie.poster_path }]

/-- Stable insertion of a document into a list kept in descending
`count` order: the new document goes after every already-placed
document whose `count` is ≥ its own, preserving store order on ties. -/
def insertByCountDesc (d : SearchDoc) : List SearchDoc → List SearchDoc
  | [] => [d]
  | e :: es => if d.count ≤ e.count then e :: insertByCountDesc d es else d :: e :: es

/-- The store ordered by `count` descending (Appwrite
`Query.orderDesc("count")`), ties kept in store order. -/
def sortByCountDesc : List SearchDoc → List SearchDoc
  | [] => []
  | d :: ds => insertByCountDesc d (sortByCountDesc ds)

/-- The successful path of `getTrendingMovies` from `src/appwrite.js`:
`listDocuments` with `Query.limit(5)` and `Query.orderDesc("count")`
returns the first 5 documents of the count-descending ordering. -/
def getTrendingMovies (store : List SearchDoc) : List SearchDoc :=
  (sortByCountDesc store).take 5

/-- `getTrendingMovies` including its failure path: the store query
either yields the store contents or throws; the `catch` block only
logs, so the function then falls off the end and returns JavaScript
`undefined`, modelled as `none`. -/
def getTrendingMoviesRun (storeResult : Option (List SearchDoc)) : Option (List SearchDoc) :=
  match storeResult with
  | some docs => some (getTrendingMovies docs)
  | none => none

/-! ### The catalog query endpoint (App.jsx `fetchMovies`, line 62) -/

/-- `API_BASE_URL` from the App component. -/
def API_BASE_URL : String := "https://api.themoviedb.org/3"

/-- The UTF-8 byte sequence of a character, as naturals. -/
def utf8Bytes (c : Char) : List Nat :=
  let n := c.toNat
  if n < 128 then [n]
  else if n < 2048 then [192 + n / 64, 128 + n % 64]
  else if n < 65536 then [224 + n / 4096, 128 + (n / 64) % 64, 128 + n % 64]
  else [240 + n / 262144, 128 + (n / 4096) % 64, 128 + (n / 64) % 64, 128 + n % 64]

/-- The characters JavaScript's `encodeURIComponent` leaves unescaped:
`A-Z a-z 0-9 - _ . ! ~ * ( )` and the apostrophe (code 39). -/
def isUnreservedChar (c : Char) : Bool :=
  let n := c.toNat
  (65 ≤ n && n ≤ 90) || (97 ≤ n && n ≤ 122) || (48 ≤ n && n ≤ 57) ||
  n == 45 || n == 95 || n == 46 || n == 33 || n == 126 || n == 42 ||
  n == 39 || n == 40 || n == 41

/-- Uppercase hexadecimal digit for `n < 16`. -/
def hexDigit (n : Nat) : Char :=
  if n < 10 then Char.ofNat (48 + n) else Char.ofNat (55 + n)

/-- Percent-encoding `%XX` of one byte, uppercase hex. -/
def pctByte (b : Nat) : String :=
  String.mk [Char.ofNat 37, hexDigit (b / 16), hexDigit (b % 16)]

/-- JavaScript's `encodeURIComponent`: unreserved characters pass
through, every other character is replaced by the percent-encoding of
each of its UTF-8 bytes. -/
def encodeURIComponent (s : String) : String :=
  String.join (s.data.map (fun c =>
    if isUnreservedChar c then String.mk [c]
    else String.join ((utf8Bytes c).map pctByte)))

/-- The endpoint string built by `fetchMovies` (App.jsx line 62): a
non-empty query (JavaScript truthiness of a string) selects the search
endpoint with the query percent-encoded, an empty query selects the
popularity-sorted discover endpoint. -/
def endpoint (query : String) : String :=
  if query ≠ "" then
    API_BASE_URL ++ "/search/movie?query=" ++ encodeURIComponent query
  else
    API_BASE_URL ++ "/discover/movie?sort_by=popularity.desc"

/-! ### The application controller (App.jsx) -/

/-- The parsed JSON payload of a catalog response, with the fields
`fetchMovies` reads.  Each is `none` when the field is absent
(JavaScript `undefined`). -/
structure ApiData where
  responseFlag : Option String
  errorField : Option String
  results : Option (List Movie)
  deriving Repr, DecidableEq

/-- The outcome of one `fetch` of the catalog endpoint: either a
non-success HTTP status (`!response.ok`, which `fetchMovies` turns into
a thrown error) or a parsed JSON payload. -/
inductive FetchOutcome where
  | httpError
  | ok (data : ApiData)
  deriving Repr, DecidableEq

/-- The App component's state fields.  `trendingMovies` is an `Option`
because the code can store JavaScript `undefined` in it (see
`loadTrendingMovies`); it starts as `some []` (`useState([])`). -/
structure AppState where
  searchTerm : String
  debouncedSearchTerm : String
  movieList : List Movie
  errorMessage : String
  isLoading : Bool
  trendingMovies : Option (List SearchDoc)
  deriving Repr, DecidableEq

/-- The initial state of the App component: all `useState` initial
values. -/
def initialAppState : AppState :=
  { searchTerm := "", debouncedSearchTerm := "", movieList := [],
    errorMessage := "", isLoading := false, trendingMovies := some [] }

/-- The message set by the `catch` block of `fetchMovies`. -/
def genericFetchError : String := "Error fetching movies. Please try again later."

/-- The fallback message of the `Response === "False"` branch. -/
def responseFalseFallback : String := "Failed to fetch movies"

/-- The state after the first two statements of `fetchMovies`:
`setIsLoading(true); setErrorMessage("")`. -/
def fetchMoviesStart (st : AppState) : AppState :=
  { st with isLoading := true, errorMessage := "" }

/-- The `try`/`catch` body of `fetchMovies` after the loading flag is
set, returning the updated state and the list of
`updateSearchCount(query, movie)` calls it makes.

- `httpError`: the thrown `Error("Failed to fetch movies")` reaches the
  `catch` block, which only sets the generic error message.
- `Response === "False"`: server message (or fallback) is shown and the
  movie list is cleared.
- otherwise `setMovieList(data.results || [])` runs; then the guard
  `query && data.results.length > 0` evaluates `data.results.length`,
  which throws a `TypeError` into the `catch` block when `results` is
  absent — but only when `query` is truthy, since `&&` short-circuits. -/
def fetchMoviesBody (query : String) (outcome : FetchOutcome) (st : AppState) :
    AppState × List (String × Movie) :=
  match outcome with
  | .httpError => ({ st with errorMessage := genericFetchError }, [])
  | .ok data =>
      if data.responseFlag == some "False" then
        ({ st with errorMessage := data.errorField.getD responseFalseFallback,
                   movieList := [] }, [])
      else
        let st1 := { st with movieList := data.results.getD [] }
        if query ≠ "" then
          match data.results with
          | none => ({ st1 with errorMessage := genericFetchError }, [])
          | some [] => (st1, [])
          | some (m :: _) => (st1, [(query, m)])
        else (st1, [])

/-- One whole run of `fetchMovies(query)` for a given fetch outcome:
start (loading on, error cleared), body, and the `finally` block
(`setIsLoading(false)`), which runs on every path. -/
def fetchMovies (query : String) (outcome : FetchOutcome) (st : AppState) :
    AppState × List (String × Movie) :=
  let r := fetchMoviesBody query outcome (fetchMoviesStart st)
  ({ r.1 with isLoading := false }, r.2)

/-- `loadTrendingMovies` from the App component: awaits
`getTrendingMovies()` (which never rejects — it catches internally and
resolves to `undefined` on failure) and stores the result, whatever it
is, with `setTrendingMovies(movies)`. -/
def loadTrendingMovies (storeResult : Option (List SearchDoc)) (st : AppState) : AppState :=
  { st with trendingMovies := getTrendingMoviesRun storeResult }

/-- The render expression `trendingMovies.length > 0` guarding the
trending section: evaluates to a boolean when `trendingMovies` is an
array, and to `none` — a JavaScript `TypeError` crash during render —
when `trendingMovies` is `undefined`. -/
def renderTrendingVisible (st : AppState) : Option Bool :=
  st.trendingMovies.map (fun l => decide (l.length > 0))

/-! ### The debounce timer

The App component calls
`useDebounce(() => setDebouncedSearchTerm(searchTerm), 500, [searchTerm])`
(App.jsx line 53). -/

/-- Modelled from the spec: the `useDebounce` hook itself comes from
the `react-use` library and is not part of this repository's sources.
Per §4.1 of the specification, each input change cancels any pending
propagation and schedules a new one after the quiet `window`; the
latest value is propagated only if the window elapses with no further
change.  Input: change events `(time, value)` in increasing time order.
Output: the propagation events `(time, value)` — a change propagates at
`time + window` unless the next change arrives strictly within the
window. -/
def debounceSettled (window : Nat) : List (Nat × String) → List (Nat × String)
  | [] => []
  | (t, v) :: rest =>
      match rest with
      | [] => [(t + window, v)]
      | (t2, _) :: _ =>
          if t2 < t + window then debounceSettled window rest
          else (t + window, v) :: debounceSettled window rest

/-- The catalog queries triggered by a sequence of raw-input changes:
the App's `useEffect` on `debouncedSearchTerm` issues one `fetchMovies`
per propagated (settled) value, with that value as the query. -/
def debouncedQueries (window : Nat) (events : List (Nat × String)) : List String :=
  (debounceSettled window events).map Prod.snd

/-! ## Theorems for the claims -/

/-- Claim C1: `updateSearchCount` is an upsert.  If a record whose
`searchTerm` equals the term already exists in the store (given its
document ids are distinct, as Appwrite guarantees), the first such
record's count is incremented by exactly 1, every other record is
unchanged, and no new record is created; if no such record exists,
exactly one new record is appended with `count = 1`, the movie's id,
and `poster_url` the fixed image-host prefix concatenated with the
movie's poster path (the JS rendering of `null` when it is absent). -/
theorem updateSearchCount_upsert (term : String) (movie : Movie) (freshId : String)
    (store : List SearchDoc) (hids : (store.map SearchDoc.docId).Nodup) :
    (∀ doc, store.find? (fun d => d.searchTerm == term) = some doc →
        (updateSearchCount term movie freshId store).length = store.length ∧
        { doc with count := doc.count + 1 } ∈ updateSearchCount term movie freshId store ∧
        ∀ d ∈ store, d ≠ doc → d ∈ updateSearchCount term movie freshId store) ∧
    (store.find? (fun d => d.searchTerm == term) = none →
        updateSearchCount term movie freshId store =
          store ++ [{ docId := freshId, searchTerm := term, count := 1,
                      movie_id := movie.id,
                      poster_url := tmdbImagePrefix ++ posterPathStr movie.poster_path }]) := by
  constructor
  · intro doc hdoc
    have hmem : doc ∈ store := List.mem_of_find?_eq_some hdoc
    unfold updateSearchCount
    rw [hdoc]
    refine ⟨List.length_map _ _, ?_, ?_⟩
    · have h1 : ({ doc with count := doc.count + 1 } : SearchDoc)
          = (fun d => if d.docId == doc.docId then { d with count := d.count + 1 } else d) doc := by
        simp
      rw [h1]
      exact List.mem_map_of_mem _ hmem
    · intro d hd hne
      have hid : d.docId ≠ doc.docId := fun heq =>
        hne (List.inj_on_of_nodup_map hids hd hmem heq)
      have h2 : (fun e => if e.docId == doc.docId then { e with count := e.count + 1 } else e) d
          = d := by simp [hid]
      exact h2 ▸ List.mem_map_of_mem _ hd
  · intro hnone
    unfold updateSearchCount
    rw [hnone]

/-- Concrete run of the upsert on the spec's example: term `"dune"`,
movie id 438631, poster path `"/abc.jpg"`. -/
def duneMovie : Movie := { id := 438631, title := "Dune", poster_path := some "/abc.jpg" }

/-- The store after `recordSearch("dune", duneMovie)` on an empty
store: one record with count 1. -/
def duneStore : List SearchDoc := updateSearchCount "dune" duneMovie "id1" []

/-- Witness for C1: the second `recordSearch("dune", ...)` call on the
one-record store finds the record and increments its count to 2
without creating a second record. -/
theorem updateSearchCount_upsert_witness :
    (duneStore.map SearchDoc.docId).Nodup ∧
    (duneStore.find? (fun d => d.searchTerm == "dune") =
      some { docId := "id1", searchTerm := "dune", count := 1, movie_id := 438631,
             poster_url := "https://image.tmdb.org/t/p/w500/abc.jpg" }) ∧
    ((updateSearchCount "dune" duneMovie "id2" duneStore).length = duneStore.length ∧
      ({ docId := "id1", searchTerm := "dune", count := 1 + 1, movie_id := 438631,
         poster_url := "https://image.tmdb.org/t/p/w500/abc.jpg" } : SearchDoc) ∈
        updateSearchCount "dune" duneMovie "id2" duneStore ∧
      ∀ d ∈ duneStore,
        d ≠ { docId := "id1", searchTerm := "dune", count := 1, movie_id := 438631,
              poster_url := "https://image.tmdb.org/t/p/w500/abc.jpg" } →
          d ∈ updateSearchCount "dune" duneMovie "id2" duneStore) :=
  ⟨by decide, by decide,
    (updateSearchCount_upsert "dune" duneMovie "id2" duneStore (by decide)).1
      { docId := "id1", searchTerm := "dune", count := 1, movie_id := 438631,
        poster_url := "https://image.tmdb.org/t/p/w500/abc.jpg" } (by decide)⟩

/-- A state holding one movie in the list, to observe whether an error
path clears it. -/
def stWithMovie : AppState :=
  { initialAppState with movieList := [{ id := 1, title := "x", poster_path := none }] }

/-- Counterexample to claim C2 as stated: on a transport failure
(non-success HTTP status) the `catch` block of `fetchMovies` sets the
generic error message but does NOT clear the movie list — a previous
non-empty list survives. -/
theorem transportError_keeps_movies_counterexample :
    (fetchMovies "dune" .httpError stWithMovie).1.errorMessage = genericFetchError ∧
    (fetchMovies "dune" .httpError stWithMovie).1.movieList ≠ [] := by
  decide

/-- Claim C2, amended: on a transport failure the controller sets
`errorMessage` to the generic message and leaves the movie list at its
previous value; only on an application-level failure
(`Response === "False"`) does it both set `errorMessage` (to the
server-supplied message, else the fallback) and clear the movie list. -/
theorem queryError_state_updates (q : String) (st : AppState) (d : ApiData)
    (hflag : d.responseFlag = some "False") :
    ((fetchMovies q .httpError st).1.errorMessage = genericFetchError ∧
     (fetchMovies q .httpError st).1.movieList = st.movieList) ∧
    ((fetchMovies q (.ok d) st).1.errorMessage = d.errorField.getD responseFalseFallback ∧
     (fetchMovies q (.ok d) st).1.movieList = []) := by
  refine ⟨⟨rfl, rfl⟩, ?_, ?_⟩ <;>
    simp [fetchMovies, fetchMoviesBody, fetchMoviesStart, hflag]

/-- Witness for the amended C2 at a concrete payload carrying
`Response: "False"` and a server message. -/
theorem queryError_state_updates_witness :
    ((⟨some "False", some "Request limit reached", none⟩ : ApiData).responseFlag
        = some "False") ∧
    (((fetchMovies "dune" .httpError stWithMovie).1.errorMessage = genericFetchError ∧
      (fetchMovies "dune" .httpError stWithMovie).1.movieList = stWithMovie.movieList) ∧
     ((fetchMovies "dune" (.ok ⟨some "False", some "Request limit reached", none⟩)
          stWithMovie).1.errorMessage
        = (Option.some "Request limit reached").getD responseFalseFallback ∧
      (fetchMovies "dune" (.ok ⟨some "False", some "Request limit reached", none⟩)
          stWithMovie).1.movieList = [])) :=
  ⟨rfl, queryError_state_updates "dune" stWithMovie
    ⟨some "False", some "Request limit reached", none⟩ rfl⟩

/-- Claim C4: on a payload with `Response === "False"`, the controller
sets `errorMessage` to the server-supplied `Error` when present (else
the fallback "Failed to fetch movies"), clears the movie list, makes no
`updateSearchCount` call, and ends with `isLoading = false`. -/
theorem responseFalse_error_branch (q : String) (st : AppState) (d : ApiData)
    (hflag : d.responseFlag = some "False") :
    (fetchMovies q (.ok d) st).1.errorMessage = d.errorField.getD responseFalseFallback ∧
    (fetchMovies q (.ok d) st).1.movieList = [] ∧
    (fetchMovies q (.ok d) st).1.isLoading = false ∧
    (fetchMovies q (.ok d) st).2 = [] := by
  refine ⟨?_, ?_, ?_, ?_⟩ <;>
    simp [fetchMovies, fetchMoviesBody, fetchMoviesStart, hflag]

/-- Witness for C4 on the spec's example payload
`{Response:"False", Error:"Request limit reached"}`. -/
theorem responseFalse_error_branch_witness :
    ((⟨some "False", some "Request limit reached", none⟩ : ApiData).responseFlag
        = some "False") ∧
    ((fetchMovies "batman" (.ok ⟨some "False", some "Request limit reached", none⟩)
        initialAppState).1.errorMessage
      = (Option.some "Request limit reached").getD responseFalseFallback ∧
     (fetchMovies "batman" (.ok ⟨some "False", some "Request limit reached", none⟩)
        initialAppState).1.movieList = [] ∧
     (fetchMovies "batman" (.ok ⟨some "False", some "Request limit reached", none⟩)
        initialAppState).1.isLoading = false ∧
     (fetchMovies "batman" (.ok ⟨some "False", some "Request limit reached", none⟩)
        initialAppState).2 = []) :=
  ⟨rfl, responseFalse_error_branch "batman" initialAppState
    ⟨some "False", some "Request limit reached", none⟩ rfl⟩

/-- Claim C5: the empty query targets the discover endpoint sorted by
popularity; a non-empty query targets the search endpoint with the
term percent-encoded, and `"the dark knight"` encodes to
`"the%20dark%20knight"`. -/
theorem endpoint_selection_and_encoding :
    endpoint "" = "https://api.themoviedb.org/3/discover/movie?sort_by=popularity.desc" ∧
    (∀ q : String, q ≠ "" →
      endpoint q = "https://api.themoviedb.org/3/search/movie?query=" ++ encodeURIComponent q) ∧
    encodeURIComponent "the dark knight" = "the%20dark%20knight" := by
  refine ⟨rfl, fun q hq => ?_, by decide⟩
  simp [endpoint, hq, API_BASE_URL]

/-- Witness for C5 at the non-empty query `"batman"`. -/
theorem endpoint_selection_witness :
    "batman" ≠ "" ∧
    endpoint "batman" =
      "https://api.themoviedb.org/3/search/movie?query=" ++ encodeURIComponent "batman" :=
  ⟨by decide, endpoint_selection_and_encoding.2.1 "batman" (by decide)⟩

/-- Claim C6: a catalog query run starts by setting `isLoading` to
true (with the error message cleared), and whatever the outcome —
success, application-level error or thrown transport error — the
`finally` step leaves `isLoading` false at the end. -/
theorem isLoading_query_lifecycle (q : String) (o : FetchOutcome) (st : AppState) :
    (fetchMoviesStart st).isLoading = true ∧
    (fetchMoviesStart st).errorMessage = "" ∧
    (fetchMovies q o st).1.isLoading = false :=
  ⟨rfl, rfl, rfl⟩

/-- Claim C7: `updateSearchCount` is invoked by `fetchMovies` iff the
query is non-empty and the outcome is a success payload (no
`Response === "False"` flag) whose `results` is a non-empty list; in
that case it is invoked exactly once, with the query and the first
result. -/
theorem recordSearch_invocation (q : String) (o : FetchOutcome) (st : AppState) :
    ((fetchMovies q o st).2 ≠ [] ↔
      q ≠ "" ∧ ∃ d m rest, o = FetchOutcome.ok d ∧ d.responseFlag ≠ some "False" ∧
        d.results = some (m :: rest)) ∧
    (∀ d m rest, o = FetchOutcome.ok d → d.responseFlag ≠ some "False" →
      d.results = some (m :: rest) → q ≠ "" →
      (fetchMovies q o st).2 = [(q, m)]) := by
  have key : ∀ d : ApiData, (fetchMovies q (.ok d) st).2 =
      (if d.responseFlag = some "False" then []
       else match d.results with
            | some (m :: _) => if q ≠ "" then [(q, m)] else []
            | _ => []) := by
    intro d
    by_cases hflag : d.responseFlag = some "False"
    · simp [fetchMovies, fetchMoviesBody, hflag]
    · by_cases hq : q = "" <;>
        · cases hres : d.results with
          | none => simp [fetchMovies, fetchMoviesBody, hflag, hq, hres]
          | some rs => cases rs <;> simp [fetchMovies, fetchMoviesBody, hflag, hq, hres]
  constructor
  · cases o with
    | httpError =>
        simp only [fetchMovies, fetchMoviesBody]
        constructor
        · intro h; exact absurd rfl h
        · rintro ⟨-, d, m, rest, h, -⟩; cases h
    | ok d =>
        rw [key d]
        by_cases hflag : d.responseFlag = some "False"
        · simp only [hflag, if_pos rfl, ne_eq, not_true_eq_false]
          constructor
          · intro h; exact absurd rfl h
          · rintro ⟨-, d2, m, rest, h, hf, -⟩
            cases h
            exact absurd hflag hf
        · by_cases hq : q = ""
          · subst hq
            cases hres : d.results with
            | none => simp [hflag, hres]
            | some rs => cases rs <;> simp [hflag, hres]
          · cases hres : d.results with
            | none =>
                simp only [hflag, if_neg hflag, hres]
                constructor
                · intro h; exact absurd rfl h
                · rintro ⟨-, d2, m, rest, h, -, hr⟩
                  cases h
                  rw [hres] at hr
                  cases hr
            | some rs =>
                cases rs with
                | nil =>
                    simp only [hflag, if_neg hflag, hres]
                    constructor
                    · intro h; exact absurd rfl h
                    · rintro ⟨-, d2, m, rest, h, -, hr⟩
                      cases h
                      rw [hres] at hr
                      cases hr
                | cons m rest =>
                    simp only [if_neg hflag, hres]
                    rw [if_pos hq]
                    constructor
                    · intro _
                      exact ⟨hq, d, m, rest, rfl, hflag, hres⟩
                    · intro _
                      simp
  · rintro d m rest rfl hflag hres hq
    rw [key d, if_neg hflag]
    simp only [hres]
    rw [if_pos hq]

/-- Witness for C7: a non-empty query with one result triggers exactly
one `updateSearchCount(query, firstResult)` call. -/
theorem recordSearch_invocation_witness :
    ((⟨none, none, some [duneMovie]⟩ : ApiData).responseFlag ≠ some "False") ∧
    ((⟨none, none, some [duneMovie]⟩ : ApiData).results = some (duneMovie :: [])) ∧
    "dune" ≠ "" ∧
    (fetchMovies "dune" (.ok ⟨none, none, some [duneMovie]⟩) initialAppState).2 =
      [("dune", duneMovie)] :=
  ⟨by decide, rfl, by decide,
    (recordSearch_invocation "dune" (.ok ⟨none, none, some [duneMovie]⟩) initialAppState).2
      ⟨none, none, some [duneMovie]⟩ duneMovie [] rfl (by decide) rfl (by decide)⟩

/-- Claim C10: on an HTTP-ok payload without the failure flag but with
no `results` field, a non-empty query makes `fetchMovies` set the
movie list to empty (via `data.results || []`) and then throw a
`TypeError` at `data.results.length`, so the run ends with the generic
error message and `isLoading` false — not an ordinary empty-result
success. -/
theorem missing_results_error_branch (q : String) (st : AppState) (d : ApiData)
    (hq : q ≠ "") (hflag : d.responseFlag ≠ some "False") (hres : d.results = none) :
    (fetchMovies q (.ok d) st).1.movieList = [] ∧
    (fetchMovies q (.ok d) st).1.errorMessage = genericFetchError ∧
    (fetchMovies q (.ok d) st).1.isLoading = false := by
  refine ⟨?_, ?_, ?_⟩ <;>
    simp [fetchMovies, fetchMoviesBody, fetchMoviesStart, hflag, hq, hres]

/-- Witness for C10 at a concrete payload with no `results` field. -/
theorem missing_results_error_branch_witness :
    "dune" ≠ "" ∧
    ((⟨none, none, none⟩ : ApiData).responseFlag ≠ some "False") ∧
    ((⟨none, none, none⟩ : ApiData).results = none) ∧
    ((fetchMovies "dune" (.ok ⟨none, none, none⟩) initialAppState).1.movieList = [] ∧
     (fetchMovies "dune" (.ok ⟨none, none, none⟩) initialAppState).1.errorMessage
       = genericFetchError ∧
     (fetchMovies "dune" (.ok ⟨none, none, none⟩) initialAppState).1.isLoading = false) :=
  ⟨by decide, by decide, rfl,
    missing_results_error_branch "dune" initialAppState ⟨none, none, none⟩
      (by decide) (by decide) rfl⟩

/-- Claim C3 (behaviour of the code at the failing input): when the
trending store query fails, `getTrendingMovies` resolves to
`undefined`, `loadTrendingMovies` stores it — so `trendingMovies` does
NOT keep its previous value — and the render guard
`trendingMovies.length > 0` then has no value (a `TypeError` crash),
contradicting the claim that the failure is absorbed without crashing. -/
theorem trendingFailure_undefined_render_crash :
    (loadTrendingMovies none initialAppState).trendingMovies = none ∧
    (loadTrendingMovies none initialAppState).trendingMovies ≠ initialAppState.trendingMovies ∧
    renderTrendingVisible (loadTrendingMovies none initialAppState) = none := by
  decide

/-! ### Sortedness of the trending query -/

/-- The head of an ordered insertion is the inserted document or the
old head. -/
theorem head?_insertByCountDesc (d : SearchDoc) (l : List SearchDoc) :
    (insertByCountDesc d l).head? = some d ∨ (insertByCountDesc d l).head? = l.head? := by
  cases l with
  | nil => left; rfl
  | cons e es =>
      unfold insertByCountDesc
      by_cases hc : d.count ≤ e.count
      · right; simp [hc]
      · left; simp [hc]

/-- Ordered insertion preserves descending-count ordering. -/
theorem chain'_insertByCountDesc (d : SearchDoc) (l : List SearchDoc)
    (h : l.Chain' (fun a b => b.count ≤ a.count)) :
    (insertByCountDesc d l).Chain' (fun a b => b.count ≤ a.count) := by
  induction l with
  | nil => simp [insertByCountDesc]
  | cons e es ih =>
      rw [List.chain'_cons'] at h
      obtain ⟨hhead, hes⟩ := h
      unfold insertByCountDesc
      by_cases hc : d.count ≤ e.count
      · rw [if_pos hc, List.chain'_cons']
        refine ⟨?_, ih hes⟩
        intro y hy
        rcases head?_insertByCountDesc d es with h1 | h1
        · rw [h1] at hy
          cases hy
          exact hc
        · rw [h1] at hy
          exact hhead y hy
      · rw [if_neg hc, List.chain'_cons']
        refine ⟨?_, List.chain'_cons'.mpr ⟨hhead, hes⟩⟩
        intro y hy
        cases hy
        exact le_of_not_le hc

/-- The count-descending sort is sorted. -/
theorem chain'_sortByCountDesc (l : List SearchDoc) :
    (sortByCountDesc l).Chain' (fun a b => b.count ≤ a.count) := by
  induction l with
  | nil => simp [sortByCountDesc]
  | cons d ds ih => exact chain'_insertByCountDesc d _ ih

/-- Ordered insertion permutes consing. -/
theorem insertByCountDesc_perm (d : SearchDoc) (l : List SearchDoc) :
    (insertByCountDesc d l).Perm (d :: l) := by
  induction l with
  | nil => exact List.Perm.refl _
  | cons e es ih =>
      unfold insertByCountDesc
      by_cases hc : d.count ≤ e.count
      · rw [if_pos hc]
        exact (ih.cons e).trans (List.Perm.swap d e es)
      · rw [if_neg hc]

/-- The count-descending sort is a permutation of the store. -/
theorem sortByCountDesc_perm (l : List SearchDoc) : (sortByCountDesc l).Perm l := by
  induction l with
  | nil => exact List.Perm.refl _
  | cons d ds ih => exact (insertByCountDesc_perm d _).trans (ih.cons d)

/-- A concrete store of 5 distinct terms with counts `[3,1,5,2,4]` in
insertion order, the spec's trending example. -/
def trendingExampleStore : List SearchDoc :=
  [{ docId := "a", searchTerm := "t1", count := 3, movie_id := 1, poster_url := "u1" },
   { docId := "b", searchTerm := "t2", count := 1, movie_id := 2, poster_url := "u2" },
   { docId := "c", searchTerm := "t3", count := 5, movie_id := 3, poster_url := "u3" },
   { docId := "d", searchTerm := "t4", count := 2, movie_id := 4, poster_url := "u4" },
   { docId := "e", searchTerm := "t5", count := 4, movie_id := 5, poster_url := "u5" }]

/-- Claim C8: `getTrendingMovies` returns at most 5 records, pairwise
ordered by count descending, taken from the front of a count-sorted
permutation of the whole store; on the example store with counts
`[3,1,5,2,4]` it returns exactly the 5 records in count order
`[5,4,3,2,1]`. -/
theorem getTrendingMovies_top5 :
    (∀ store : List SearchDoc,
        (getTrendingMovies store).length ≤ 5 ∧
        (getTrendingMovies store).Pairwise (fun a b => b.count ≤ a.count) ∧
        (sortByCountDesc store).Perm store) ∧
    (getTrendingMovies trendingExampleStore).map SearchDoc.count = [5, 4, 3, 2, 1] := by
  refine ⟨fun store => ⟨?_, ?_, sortByCountDesc_perm store⟩, by decide⟩
  · exact List.length_take_le 5 (sortByCountDesc store)
  · haveI : IsTrans SearchDoc (fun a b => b.count ≤ a.count) :=
      ⟨fun a b c h1 h2 => le_trans h2 h1⟩
    have hp : (sortByCountDesc store).Pairwise (fun a b => b.count ≤ a.count) :=
      List.chain'_iff_pairwise.mp (chain'_sortByCountDesc store)
    exact hp.sublist (List.take_sublist 5 _)

/-! ### The debounce property -/

/-- When every change arrives strictly within the quiet window of the
previous one, the debounce timer propagates exactly the last value,
one window after the last change. -/
theorem debounceSettled_rapid (w : Nat) (events : List (Nat × String)) :
    ∀ e : Nat × String, events.Chain' (fun a b => b.1 < a.1 + w) →
      events.getLast? = some e →
      debounceSettled w events = [(e.1 + w, e.2)] := by
  induction events with
  | nil => intro e _ h; cases h
  | cons a rest ih =>
      intro e hchain hlast
      cases rest with
      | nil =>
          simp only [List.getLast?_singleton] at hlast
          cases hlast
          rfl
      | cons b rest2 =>
          rw [List.chain'_cons] at hchain
          rw [List.getLast?_cons_cons] at hlast
          show (if b.1 < a.1 + w then debounceSettled w (b :: rest2)
                else (a.1 + w, a.2) :: debounceSettled w (b :: rest2)) = _
          rw [if_pos hchain.1]
          exact ih e hchain.2 hlast

/-- Claim C9: under the 500-unit quiet window, a sequence of
raw-input changes in which each change arrives strictly within 500
units of the previous one propagates no intermediate value: the only
settled value is the final one, one window after the last change, and
hence exactly one catalog query is issued, for the full final term. -/
theorem debounce_rapid_final_only (events : List (Nat × String)) (e : Nat × String)
    (hrapid : events.Chain' (fun a b => b.1 < a.1 + 500))
    (hlast : events.getLast? = some e) :
    debounceSettled 500 events = [(e.1 + 500, e.2)] ∧
    debouncedQueries 500 events = [e.2] := by
  have h := debounceSettled_rapid 500 events e hrapid hlast
  exact ⟨h, by simp [debouncedQueries, h]⟩

/-- The spec's end-to-end example: "inception" typed character by
character at 200-unit intervals, faster than the 500-unit window. -/
def inceptionEvents : List (Nat × String) :=
  [(0, "i"), (200, "in"), (400, "inc"), (600, "ince"), (800, "incep"),
   (1000, "incept"), (1200, "incepti"), (1400, "inceptio"), (1600, "inception")]

/-- Witness for C9 on the "inception" typing sequence: one settling
event at 2100 with the full term, and exactly one query for it. -/
theorem debounce_rapid_final_only_witness :
    inceptionEvents.Chain' (fun a b => b.1 < a.1 + 500) ∧
    inceptionEvents.getLast? = some (1600, "inception") ∧
    (debounceSettled 500 inceptionEvents = [(1600 + 500, "inception")] ∧
     debouncedQueries 500 inceptionEvents = ["inception"]) :=
  ⟨by norm_num [inceptionEvents, List.chain'_cons, List.chain'_singleton], rfl,
    debounce_rapid_final_only inceptionEvents (1600, "inception")
      (by norm_num [inceptionEvents, List.chain'_cons, List.chain'_singleton]) rfl⟩

end ReactMovie
